import Mathlib

set_option maxRecDepth 100000

/-!
Verification of the titiler-pgstac core against its specification.

The development shallowly embeds the code of `src/titiler/pgstac/dependencies.py`
(search-parameter canonicalization, the TTL-cached single-item lookup, and the
colormap resolver) together with the registration / resolution behaviour pinned
by `src/tests/test_mosaic.py`.  Machine integers are modelled as `Nat` with
explicit reduction modulo `2 ^ 32` where the MD5 digest needs it; floating point
in the linear-colormap pipeline is modelled as exact rational arithmetic.
-/


/-! ## MD5

The searchid of a registered mosaic search is the MD5 digest of the canonical
text of the search plus metadata (PostgreSQL `md5()` inside pgstac's
`search_hash`).  We implement MD5 over byte lists, with 32-bit words as `Nat`
reduced modulo `2 ^ 32`. -/

def w32 : Nat := 4294967296

def add32 (a b : Nat) : Nat := (a + b) % w32

def rotl32 (x s : Nat) : Nat := ((x <<< s) + (x >>> (32 - s))) % w32

def not32 (x : Nat) : Nat := 4294967295 ^^^ x

/-- The 64 MD5 round constants (binary integer parts of abs(sin(i+1)) * 2^32). -/
def md5K : List Nat :=
  [3614090360, 3905402710, 606105819, 3250441966, 4118548399, 1200080426,
   2821735955, 4249261313, 1770035416, 2336552879, 4294925233, 2304563134,
   1804603682, 4254626195, 2792965006, 1236535329, 4129170786, 3225465664,
   643717713, 3921069994, 3593408605, 38016083, 3634488961, 3889429448,
   568446438, 3275163606, 4107603335, 1163531501, 2850285829, 4243563512,
   1735328473, 2368359562, 4294588738, 2272392833, 1839030562, 4259657740,
   2763975236, 1272893353, 4139469664, 3200236656, 681279174, 3936430074,
   3572445317, 76029189, 3654602809, 3873151461, 530742520, 3299628645,
   4096336452, 1126891415, 2878612391, 4237533241, 1700485571, 2399980690,
   4293915773, 2240044497, 1873313359, 4264355552, 2734768916, 1309151649,
   4149444226, 3174756917, 718787259, 3951481745]

/-- The 64 MD5 per-round left-rotation amounts. -/
def md5S : List Nat :=
  [7, 12, 17, 22, 7, 12, 17, 22, 7, 12, 17, 22, 7, 12, 17, 22,
   5, 9, 14, 20, 5, 9, 14, 20, 5, 9, 14, 20, 5, 9, 14, 20,
   4, 11, 16, 23, 4, 11, 16, 23, 4, 11, 16, 23, 4, 11, 16, 23,
   6, 10, 15, 21, 6, 10, 15, 21, 6, 10, 15, 21, 6, 10, 15, 21]

/-- The MD5 nonlinear function for round `i`. -/
def md5F (i b c d : Nat) : Nat :=
  if i < 16 then (b &&& c) ||| (not32 b &&& d)
  else if i < 32 then (d &&& b) ||| (not32 d &&& c)
  else if i < 48 then b ^^^ c ^^^ d
  else c ^^^ (b ||| not32 d)

/-- The message-word index consumed by MD5 round `i`. -/
def md5G (i : Nat) : Nat :=
  if i < 16 then i
  else if i < 32 then (5 * i + 1) % 16
  else if i < 48 then (3 * i + 5) % 16
  else (7 * i) % 16

/-- One MD5 round: rotate the state quadruple, mixing in message word `md5G i`. -/
def md5Step (m : List Nat) (st : Nat × Nat × Nat × Nat) (i : Nat) :
    Nat × Nat × Nat × Nat :=
  let (a, b, c, d) := st
  let f := add32 (add32 a (md5F i b c d)) (add32 (md5K.getD i 0) (m.getD (md5G i) 0))
  (d, add32 b (rotl32 f (md5S.getD i 0)), b, c)

/-- Process one 16-word block: 64 rounds, then add the incoming state back in. -/
def md5Block (st : Nat × Nat × Nat × Nat) (m : List Nat) : Nat × Nat × Nat × Nat :=
  let (a, b, c, d) := (List.range 64).foldl (md5Step m) st
  (add32 a st.1, add32 b st.2.1, add32 c st.2.2.1, add32 d st.2.2.2)

/-- `count` little-endian bytes of `n`. -/
def leBytes (n : Nat) : Nat → List Nat
  | 0 => []
  | k + 1 => n % 256 :: leBytes (n / 256) k

/-- Group a byte list into little-endian 32-bit words. -/
def leWords : List Nat → List Nat
  | b0 :: b1 :: b2 :: b3 :: rest =>
      (b0 + 256 * b1 + 65536 * b2 + 16777216 * b3) :: leWords rest
  | _ => []

/-- MD5 padding: a 0x80 byte, zeros to 56 mod 64, then the 64-bit bit length. -/
def md5Pad (msg : List Nat) : List Nat :=
  let zeros := (56 + 64 - (msg.length + 1) % 64) % 64
  msg ++ [128] ++ List.replicate zeros 0 ++ leBytes (8 * msg.length) 8

/-- Split a byte list into 64-byte chunks (`fuel` bounds the recursion depth and
is instantiated with the list length, which more than suffices). -/
def chunks64Go : Nat → List Nat → List (List Nat)
  | 0, _ => []
  | _, [] => []
  | fuel + 1, x :: xs => ((x :: xs).take 64) :: chunks64Go fuel ((x :: xs).drop 64)

/-- Split a byte list into 64-byte chunks. -/
def chunks64 (l : List Nat) : List (List Nat) := chunks64Go l.length l

def md5Init : Nat × Nat × Nat × Nat := (1732584193, 4023233417, 2562383102, 271733878)

def hexDigit (n : Nat) : Char := "0123456789abcdef".data.getD n ' '

def byteHexChars (b : Nat) : List Char := [hexDigit (b / 16), hexDigit (b % 16)]

def word32Hex (w : Nat) : List Char :=
  (List.map byteHexChars (leBytes w 4)).flatten

/-- MD5 digest of a byte list, as the usual 32-character lowercase hex string. -/
def md5Hex (msg : List Nat) : String :=
  let st := (chunks64 (md5Pad msg)).foldl (fun st blk => md5Block st (leWords blk)) md5Init
  String.mk ((List.map word32Hex [st.1, st.2.1, st.2.2.1, st.2.2.2]).flatten)

/-- UTF-8 bytes of an ASCII string (every string we hash is ASCII). -/
def asciiBytes (s : String) : List Nat := s.data.map Char.toNat

/-! ## JSON values and PostgreSQL jsonb canonical text

The registration flow serializes the search model to JSON, stores it in a
PostgreSQL `jsonb` column, and hashes the canonical `jsonb` text.  `jsonb`
stores object keys sorted by length and then bytewise, and renders objects and
arrays with a space after each comma and colon.  Numbers are carried as the
decimal text produced by PostgreSQL `numeric` rendering. -/

inductive JVal where
  | str (s : String)
  | num (s : String)
  | boolean (b : Bool)
  | null
  | arr (xs : List JVal)
  | obj (fields : List (String × JVal))

def jsonEscapeChar (c : Char) : List Char :=
  if c = '"' then ['\\', '"'] else if c = '\\' then ['\\', '\\'] else [c]

def jsonQuote (s : String) : String :=
  "\"" ++ String.mk ((s.data.map jsonEscapeChar).flatten) ++ "\""

def charListLt : List Char → List Char → Bool
  | [], [] => false
  | [], _ :: _ => true
  | _ :: _, [] => false
  | a :: as, b :: bs => a < b || (a = b && charListLt as bs)

/-- The `jsonb` object-key order: shorter keys first, equal lengths bytewise. -/
def jsonbKeyLt (a b : String) : Bool :=
  a.data.length < b.data.length
    || (a.data.length = b.data.length && charListLt a.data b.data)

def insertSortedBy (lt : α → α → Bool) (x : α) : List α → List α
  | [] => [x]
  | y :: ys => if lt x y then x :: y :: ys else y :: insertSortedBy lt x ys

def sortListBy (lt : α → α → Bool) (l : List α) : List α :=
  l.foldr (insertSortedBy lt) []

/-- Render a JSON value the way `jsonb::text` does (`fuel` bounds the nesting
depth; every value in this development nests fewer than 64 levels deep). -/
def jsonbRenderGo : Nat → JVal → String
  | 0, _ => ""
  | _ + 1, .str s => jsonQuote s
  | _ + 1, .num s => s
  | _ + 1, .boolean b => if b then "true" else "false"
  | _ + 1, .null => "null"
  | fuel + 1, .arr xs =>
      "[" ++ String.intercalate ", " (xs.map (jsonbRenderGo fuel)) ++ "]"
  | fuel + 1, .obj fs =>
      "\x7b" ++
        String.intercalate ", "
          ((sortListBy (fun a b => jsonbKeyLt a.1 b.1) fs).map
            (fun kv => jsonQuote kv.1 ++ ": " ++ jsonbRenderGo fuel kv.2)) ++
      "\x7d"

def jsonbRender (v : JVal) : String := jsonbRenderGo 64 v

/-! ## Pydantic serialization and `SearchParams`

`SearchParams` (src/titiler/pgstac/dependencies.py, lines 38-47) splits a
`RegisterMosaic` body into the search dict — `body.dict(exclude_none=True,
exclude=set(metadata), by_alias=True)` — and the metadata. -/

/-- One pydantic model field: declared name, serialization alias, and its
current value (`none` models Python `None`). -/
structure PField where
  pyName : String
  pyAlias : String
  value : Option JVal

/-- Pydantic `.dict()`: drop fields listed in `exclude`; drop `None` fields when
`excludeNone`; key each remaining field by its alias when `byAlias`. -/
def pydanticDict (excludeNone : Bool) (exclude : List String) (byAlias : Bool)
    (fields : List PField) : List (String × JVal) :=
  fields.filterMap fun f =>
    if f.pyName ∈ exclude then none
    else
      let key := if byAlias then f.pyAlias else f.pyName
      match f.value with
      | none => if excludeNone then none else some (key, JVal.null)
      | some v => some (key, v)

/-- Modelled from the spec: `titiler.pgstac.model.RegisterMosaic` is not under
src/.  Per spec section 3 a SearchQuery carries a collection set, optional id
list, optional bounding box, optional datetime range, optional geometry and an
optional structured filter predicate with its language tag; `RegisterMosaic`
adds the metadata holding the mosaic discriminator.  Bounding-box coordinates
are carried as their PostgreSQL numeric decimal text. -/
structure RegisterMosaic where
  collections : Option (List String) := none
  ids : Option (List String) := none
  bbox : Option (List String) := none
  datetime : Option String := none
  intersects : Option JVal := none
  filter : Option JVal := none
  filter_lang : Option String := none
  metadata : JVal := JVal.obj [("type", JVal.str "mosaic")]

/-- The pydantic field list of a `RegisterMosaic` value, in declaration order,
with the `filter-lang` serialization alias. -/
def RegisterMosaic.fieldList (m : RegisterMosaic) : List PField :=
  [⟨"collections", "collections", m.collections.map (fun cs => JVal.arr (cs.map JVal.str))⟩,
   ⟨"ids", "ids", m.ids.map (fun xs => JVal.arr (xs.map JVal.str))⟩,
   ⟨"bbox", "bbox", m.bbox.map (fun bs => JVal.arr (bs.map JVal.num))⟩,
   ⟨"datetime", "datetime", m.datetime.map JVal.str⟩,
   ⟨"intersects", "intersects", m.intersects⟩,
   ⟨"filter", "filter", m.filter⟩,
   ⟨"filter_lang", "filter-lang", m.filter_lang.map JVal.str⟩,
   ⟨"metadata", "metadata", some m.metadata⟩]

/-- `SearchParams` (src/titiler/pgstac/dependencies.py lines 38-47): the search
dict with `None` fields and metadata excluded, keyed by alias, plus metadata. -/
def SearchParams (body : RegisterMosaic) : List (String × JVal) × JVal :=
  (pydanticDict true ["metadata"] true body.fieldList, body.metadata)

/-! ## Search registration -/

/-- Modelled from the spec: the registration endpoint (the mosaic router) and
pgstac's `search_query`/`search_hash` SQL are code of this repository and its
store that is not under src/.  Per spec section 4.2, `searchid =
hash(encode(query))` with a collision-resistant content hash; the concrete
searchids asserted by src/tests/test_mosaic.py force the hash to be MD5 of the
canonical `jsonb` text of the search followed by the `jsonb` text of the
metadata (the sanity theorems below reproduce both test constants exactly). -/
def searchHashId (search metadata : JVal) : String :=
  md5Hex (asciiBytes (jsonbRender search ++ jsonbRender metadata))

/-- A registered search: id, stored query, stored metadata. -/
structure RegisteredSearch where
  searchid : String
  search : JVal
  metadata : JVal

abbrev SearchRegistry := List RegisteredSearch

def registryLookup (reg : SearchRegistry) (sid : String) : Option RegisteredSearch :=
  reg.find? (fun r => r.searchid = sid)

/-- Modelled from the spec: `register(query, metadata)` of spec section 4.2 is
not under src/.  Idempotent upsert: hash the canonical search; if the id is
present return the stored record unchanged, otherwise insert. -/
def registerSearch (reg : SearchRegistry) (body : RegisterMosaic) :
    SearchRegistry × String :=
  let p := SearchParams body
  let sid := searchHashId (JVal.obj p.1) p.2
  match registryLookup reg sid with
  | some _ => (reg, sid)
  | none => (reg ++ [⟨sid, JVal.obj p.1, p.2⟩], sid)

/-- The registration body of test_register's first query. -/
def queryNoBbox : RegisterMosaic :=
  { collections := some ["noaa-emergency-response"], filter_lang := some "cql-json" }

/-- The registration body of test_register's second query (added bounding box). -/
def queryBbox : RegisterMosaic :=
  { collections := some ["noaa-emergency-response"],
    bbox := some ["-85.535", "36.137", "-85.465", "36.179"],
    filter_lang := some "cql-json" }

/-! ## Single-item lookup and its TTL cache

`get_stac_item` (src/titiler/pgstac/dependencies.py lines 86-107) queries
`pgstac.search` for one item constrained to one collection, raises a 404 when
the response does not hold exactly one feature, and is wrapped in
`@cached(TTLCache(maxsize, ttl), key=lambda pool, collection, item:
hashkey(collection, item))`.  The SQL call is modelled as a function from the
pool and the key to the optional response JSON; the decorator is modelled as an
explicit state-passing step over the cache contents with an explicit clock.
The step result carries a flag recording whether a backing fetch was issued. -/

structure HTTPError where
  status_code : Nat
  detail : String
deriving DecidableEq, Repr

/-- The `search` JSON of the pgstac response: an optional features list plus
the number of its other keys (which only matters for Python truthiness of the
response dict).  `none` at the outer option models a SQL NULL response. -/
structure SearchResp (α : Type) where
  features : Option (List α)
  otherKeys : Nat
deriving DecidableEq, Repr

/-- Python truthiness of the response: `None` and the empty dict are falsy. -/
def respTruthy : Option (SearchResp α) → Bool
  | none => false
  | some r => r.features.isSome || r.otherKeys != 0

/-- Python `"features" in resp` (false as well when the response is `None`). -/
def respHasFeatures : Option (SearchResp α) → Bool
  | none => false
  | some r => r.features.isSome

def respFeatures : Option (SearchResp α) → List α
  | none => []
  | some r => r.features.getD []

def noItemMsg (collection item : String) : String :=
  "No item '" ++ item ++ "' found in '" ++ collection ++ "' collection"

/-- Lines 100-107: `if not resp or "features" not in resp or
len(resp["features"]) != 1: raise HTTPException(404, ...)`, else return the
single feature. -/
def parseItemResp (collection item : String) (resp : Option (SearchResp α)) :
    Except HTTPError α :=
  if respTruthy resp = false ∨ respHasFeatures resp = false
      ∨ (respFeatures resp).length ≠ 1 then
    .error ⟨404, noItemMsg collection item⟩
  else
    match (respFeatures resp).head? with
    | some x => .ok x
    | none => .error ⟨404, noItemMsg collection item⟩

/-- The body of `get_stac_item`: one `pgstac.search` query through the given
pool, then the exactly-one-feature check. -/
def get_stac_item_query {Pool α : Type}
    (db : Pool → String → String → Option (SearchResp α))
    (pool : Pool) (collection item : String) : Except HTTPError α :=
  parseItemResp collection item (db pool collection item)

structure CacheConfig where
  maxsize : Nat
  ttl : Nat
deriving DecidableEq, Repr

structure CacheEntry (α : Type) where
  key : String × String
  value : α
  expire : Nat
deriving DecidableEq, Repr

abbrev CacheState (α : Type) := List (CacheEntry α)

/-- The decorator's cache key, `hashkey(collection, item)`: the pool argument
is dropped. -/
def stacItemCacheKey {Pool : Type} (pool : Pool) (collection item : String) :
    String × String :=
  (collection, item)

/-- TTLCache read: an entry answers while the clock is strictly before its
expiry time (cachetools removes entries once `expires <= timer()`). -/
def cacheLookup (now : Nat) (st : CacheState α) (k : String × String) : Option α :=
  (st.find? (fun e => decide (e.key = k ∧ now < e.expire))).map (fun e => e.value)

/-- TTLCache insert housekeeping: expired entries are removed first; if the
cache is still at capacity the oldest entry is evicted. -/
def cacheEvict (now : Nat) (cfg : CacheConfig) (st : CacheState α) : CacheState α :=
  let live := st.filter (fun e => decide (now < e.expire))
  if cfg.maxsize ≤ live.length then live.drop 1 else live

def cacheInsert (now : Nat) (cfg : CacheConfig) (st : CacheState α)
    (k : String × String) (v : α) : CacheState α :=
  cacheEvict now cfg st ++ [⟨k, v, now + cfg.ttl⟩]

/-- The cached `get_stac_item`: on a valid cache hit the stored snapshot is
returned and no query runs; on a miss the body runs once, successful results
are cached, exceptions are not.  The boolean records whether a backing fetch
was issued. -/
def get_stac_item {Pool α : Type} (cfg : CacheConfig)
    (db : Pool → String → String → Option (SearchResp α))
    (st : CacheState α) (now : Nat) (pool : Pool) (collection item : String) :
    Except HTTPError α × CacheState α × Bool :=
  let k := stacItemCacheKey pool collection item
  match cacheLookup now st k with
  | some v => (.ok v, st, false)
  | none =>
    match get_stac_item_query db pool collection item with
    | .ok v => (.ok v, cacheInsert now cfg st k v, true)
    | .error e => (.error e, st, true)

/-! ## Colormap resolver

`ColorMapParams` (src/titiler/pgstac/dependencies.py lines 127-168).  The
registered-colormap registry (`rio_tiler.colormap.cmap`) and the JSON parser
(`json.loads` with the `int(k)`/`parse_color` object hook) are external
collaborators, passed in as functions.  A parse attempt distinguishes a JSON
syntax failure (`json.JSONDecodeError`, which the source catches and converts
to a 400) from an error raised inside the object hook or the later value
conversions (which the source does not catch); the latter is modelled as the
`uncaught` outcome.  The matplotlib linear expansion (lines 151-164) is
modelled channelwise in exact rational arithmetic. -/

/-- An RGBA color as `parse_color` produces it: four 8-bit channels. -/
abbrev Color := List Nat

/-- A parsed custom colormap: a JSON object becomes integer keys with RGBA
values, a JSON array becomes (interval, color) pairs. -/
inductive ParsedColormap where
  | dict (entries : List (Int × Color))
  | seq (entries : List (List Int × Color))

/-- Outcome of `json.loads` on the colormap string. -/
inductive JsonParseOutcome where
  | decodeError
  | hookError
  | value (cm : ParsedColormap)

/-- Value returned by the colormap dependency. -/
inductive ColorMapOut where
  | table (entries : List (Int × Color))
  | intervals (entries : List (List Int × Color))
  | expanded (entries : List (Nat × Color))

/-- How a `ColorMapParams` call terminates when it does not return a value:
either the HTTPException it raises, or an exception it lets escape. -/
inductive CmError where
  | http (e : HTTPError)
  | uncaught
deriving DecidableEq, Repr

/-- Exact rational arithmetic for the matplotlib pipeline: an unnormalized
fraction over `Int` with a nonnegative denominator.  The claims' stop values
are exactly representable in binary64, so the exact arithmetic agrees with the
source's float arithmetic on them. -/
structure Frac where
  num : Int
  den : Int

def mkFrac (n d : Int) : Frac := if d < 0 then ⟨-n, -d⟩ else ⟨n, d⟩

def Frac.add (a b : Frac) : Frac := mkFrac (a.num * b.den + b.num * a.den) (a.den * b.den)

def Frac.sub (a b : Frac) : Frac := mkFrac (a.num * b.den - b.num * a.den) (a.den * b.den)

def Frac.mul (a b : Frac) : Frac := mkFrac (a.num * b.num) (a.den * b.den)

def Frac.div (a b : Frac) : Frac := mkFrac (a.num * b.den) (a.den * b.num)

def Frac.le (a b : Frac) : Bool := decide (a.num * b.den ≤ b.num * a.den)

def Frac.ffloor (a : Frac) : Int := a.num.fdiv a.den

/-- `matplotlib.colors.to_hex` channel quantization: round(255 * v) for a
channel value v in the unit interval. -/
def toHex8 (q : Frac) : ℕ := ((Frac.mul ⟨255, 1⟩ q).add ⟨1, 2⟩).ffloor.toNat

/-- `np.interp`-style piecewise-linear interpolation through the points already
seen, clamping to the outermost values. -/
def interpGo (p y : Frac) : List (Frac × Frac) → Frac → Frac
  | [], _ => y
  | (p1, y1) :: rest, x =>
      if x.le p1 then y.add (((y1.sub y).mul (x.sub p)).div (p1.sub p))
      else interpGo p1 y1 rest x

def interpPts : List (Frac × Frac) → Frac → Frac
  | [], _ => ⟨0, 1⟩
  | (p0, y0) :: rest, x => if x.le p0 then y0 else interpGo p0 y0 rest x

/-- `LinearSegmentedColormap.from_list` rejects stop lists that do not start at
position 0 and end at position 1 (keys 0 and 255 before division by 255). -/
def linearCmValid : List (Int × Color) → Bool
  | [] => false
  | s0 :: rest => s0.1 == 0 && ((s0 :: rest).getLastD (0, [])).1 == 255

/-- Lines 151-164 in exact rational arithmetic: each stop key k becomes the
position k/255 with its channels quantized through `to_hex` and scaled back to
the unit interval; a 256-entry lookup table is built by linear interpolation at
positions i/255; sampling `cm(linspace(0, 1, 256))` reads table index
min(255, floor(256 * i / 255)); the result is scaled by 255 and truncated to
uint8. -/
def linearColormap (stops : List (Int × Color)) : List (Nat × Color) :=
  let pts : List (Frac × List Frac) :=
    stops.map (fun s =>
      (mkFrac s.1 255, s.2.map (fun c => mkFrac (toHex8 (mkFrac c 255)) 255)))
  (List.range 256).map (fun i =>
    let idx : ℕ := min 255 ((256 * i) / 255)
    let x : Frac := mkFrac idx 255
    (i, (List.range 4).map (fun ch =>
      (Frac.mul ⟨255, 1⟩ (interpPts (pts.map (fun p => (p.1, p.2.getD ch ⟨0, 1⟩))) x)).ffloor.toNat)))

/-- The two colormap kinds of the local `ColorMapType` enum. -/
inductive ColorMapKind where
  | explicit
  | linear
deriving DecidableEq, Repr

/-- `ColorMapParams` (lines 127-168): a registered name wins outright; else a
non-empty explicit string is parsed — a JSON syntax error becomes a 400, a hook
or conversion error escapes — and a `linear` request expands a dict colormap
through matplotlib (an array colormap has no `.items()` and escapes as an
attribute error); with neither input the dependency returns `None`. -/
def ColorMapParams (registry : String → List (Int × Color))
    (jsonLoad : String → JsonParseOutcome)
    (colormap_name : Option String) (colormap : Option String)
    (colormap_type : ColorMapKind) : Except CmError (Option ColorMapOut) :=
  match colormap_name with
  | some n => .ok (some (.table (registry n)))
  | none =>
    match colormap with
    | some s =>
      if s = "" then .ok none
      else
        match jsonLoad s with
        | .decodeError => .error (.http ⟨400, "Could not parse the colormap value."⟩)
        | .hookError => .error .uncaught
        | .value cm =>
          match colormap_type with
          | .linear =>
            match cm with
            | .dict entries =>
                if linearCmValid entries then .ok (some (.expanded (linearColormap entries)))
                else .error .uncaught
            | .seq _ => .error .uncaught
          | .explicit =>
            match cm with
            | .dict entries => .ok (some (.table entries))
            | .seq entries => .ok (some (.intervals entries))
    | none => .ok none

/-- The two-stop black-to-white linear specification of claim C5. -/
def twoStopLinear : List (Int × Color) :=
  [(0, [0, 0, 0, 255]), (255, [255, 255, 255, 255])]

/-! ## Asset resolution and searchid-keyed endpoints

The mosaic router and the `PGSTACBackend` resolution code of this repository
are not under src/ (only src/tests/test_mosaic.py exercises them), so this
component is modelled from the spec, section 4.4, with the NotFound detail
string pinned by the tests. -/

def Frac.fmax (a b : Frac) : Frac := if a.le b then b else a

def Frac.fmin (a b : Frac) : Frac := if a.le b then a else b

/-- An axis-aligned geographic bounding box with exact rational coordinates. -/
structure Box where
  minx : Frac
  miny : Frac
  maxx : Frac
  maxy : Frac

def Box.intersects (a b : Box) : Bool :=
  a.minx.le b.maxx && b.minx.le a.maxx && a.miny.le b.maxy && b.miny.le a.maxy

/-- The region common to two boxes, `none` when they are disjoint. -/
def boxInter (a b : Box) : Option Box :=
  if a.intersects b then
    some ⟨a.minx.fmax b.minx, a.miny.fmax b.miny, a.maxx.fmin b.maxx, a.maxy.fmin b.maxy⟩
  else none

/-- A catalog item: id, owning collection, footprint, named assets. -/
structure CatalogItem where
  itemId : String
  collection : String
  footprint : Box
  assets : List (String × String)

/-- Modelled from the spec: a registered search as the resolution engine of
spec section 4.4 consumes it — the searchid, the collection filter and the
declared bounding region. -/
structure MosaicSearch where
  searchid : String
  collections : Option (List String) := none
  bboxFilter : Option Box := none

abbrev MosaicRegistry := List MosaicSearch

def mosaicLookup (reg : MosaicRegistry) (sid : String) : Option MosaicSearch :=
  reg.find? (fun s => s.searchid == sid)

/-- Modelled from the spec and pinned by the tests: the NotFound error naming
the offending searchid. -/
def searchIdNotFound (sid : String) : HTTPError :=
  ⟨404, "SearchId `" ++ sid ++ "` not found"⟩

/-- One catalog item reduced to the wire shape of the assets endpoints
(id, bbox, assets, collection). -/
structure AssetRecord where
  id : String
  bbox : Box
  assets : List (String × String)
  collection : String

def itemMatchesCollections (cs : Option (List String)) (it : CatalogItem) : Bool :=
  match cs with
  | none => true
  | some l => l.contains it.collection

/-- Modelled from the spec: the external spatial search of spec sections 4.4
and 6 with the search's stored filter applied.  The
query region and the search's declared bounding region are combined by logical
AND into one spatial predicate, and an item matches when it passes the
collection filter and its footprint intersects the combined region.  Item order
is the catalog's own order (spec section 4.4: ordering is the external store's
contract). -/
def spatialSearch (catalog : List CatalogItem) (s : MosaicSearch) (region : Box) :
    List AssetRecord :=
  let eff := match s.bboxFilter with
    | none => some region
    | some b => boxInter region b
  match eff with
  | none => []
  | some r =>
      (catalog.filter (fun it =>
          itemMatchesCollections s.collections it && it.footprint.intersects r)).map
        (fun it => ⟨it.itemId, it.footprint, it.assets, it.collection⟩)

/-- Modelled from the spec: the shared resolution entry of spec section 4.4 —
look up the searchid (NotFound when absent), then run the spatial search. -/
def assetsForRegion (catalog : List CatalogItem) (reg : MosaicRegistry)
    (sid : String) (region : Box) : Except HTTPError (List AssetRecord) :=
  match mosaicLookup reg sid with
  | none => .error (searchIdNotFound sid)
  | some s => .ok (spatialSearch catalog s region)

/-- A point query region (the zero-buffer degenerate box around the point). -/
def pointBox (lon lat : Frac) : Box := ⟨lon, lat, lon, lat⟩

/-- Modelled from the spec: the assets-for-point endpoint. -/
def assetsForPointEndpoint (catalog : List CatalogItem) (reg : MosaicRegistry)
    (sid : String) (lon lat : Frac) : Except HTTPError (List AssetRecord) :=
  assetsForRegion catalog reg sid (pointBox lon lat)

/-- Modelled from the spec: the assets-for-tile endpoint (the tile's bounding
polygon is taken as the query region). -/
def assetsForTileEndpoint (catalog : List CatalogItem) (reg : MosaicRegistry)
    (sid : String) (tile : Box) : Except HTTPError (List AssetRecord) :=
  assetsForRegion catalog reg sid tile

/-- Modelled from the spec: the info endpoint — the stored search or NotFound. -/
def mosaicInfoEndpoint (reg : MosaicRegistry) (sid : String) :
    Except HTTPError MosaicSearch :=
  match mosaicLookup reg sid with
  | none => .error (searchIdNotFound sid)
  | some s => .ok s

/-- Missing asset/expression selector on a render request is a client error. -/
def missingSelectorErr : HTTPError :=
  ⟨400, "assets must be defined either via expression or assets options."⟩

/-- Rendering a region with no intersecting assets is NoAssetFound, distinct
from an unknown searchid. -/
def noAssetsErr : HTTPError := ⟨404, "No assets found"⟩

/-- Modelled from the spec: the tile rendering endpoint up to asset resolution —
searchid lookup, then selector validation, then resolution with NoAssetFound on
an empty result. -/
def mosaicTileEndpoint (catalog : List CatalogItem) (reg : MosaicRegistry)
    (sid : String) (tile : Box) (selector : Option String) :
    Except HTTPError (List AssetRecord) :=
  match mosaicLookup reg sid with
  | none => .error (searchIdNotFound sid)
  | some s =>
    match selector with
    | none => .error missingSelectorErr
    | some _ =>
      let found := spatialSearch catalog s tile
      if found.isEmpty then .error noAssetsErr else .ok found

/-- Modelled from the spec: the statistics endpoint up to asset resolution,
over a geometry region. -/
def mosaicStatisticsEndpoint (catalog : List CatalogItem) (reg : MosaicRegistry)
    (sid : String) (geometry : Box) (selector : Option String) :
    Except HTTPError (List AssetRecord) :=
  match mosaicLookup reg sid with
  | none => .error (searchIdNotFound sid)
  | some s =>
    match selector with
    | none => .error missingSelectorErr
    | some _ => .ok (spatialSearch catalog s geometry)

/-! ## Sanity theorems: RFC 1321 vectors and the searchids pinned by the tests -/

/-- Sanity: MD5 of "abc" matches the RFC 1321 test vector. -/
theorem md5Hex_abc : md5Hex (asciiBytes "abc") = "900150983cd24fb0d6963f7d28e17f72" := by
  decide

/-- Sanity: MD5 of the empty message matches the RFC 1321 test vector. -/
theorem md5Hex_empty : md5Hex [] = "d41d8cd98f00b204e9800998ecf8427e" := by
  decide

/-- Sanity: the canonical text of the first test query. -/
theorem searchText_queryNoBbox :
    jsonbRender (JVal.obj (SearchParams queryNoBbox).1) =
      "\x7b\"collections\": [\"noaa-emergency-response\"], \"filter-lang\": \"cql-json\"\x7d" := by
  decide

/-- Sanity: the modelled registration hash reproduces the searchid that
test_register asserts for the no-bbox query. -/
theorem searchHashId_queryNoBbox :
    (registerSearch [] queryNoBbox).2 = "8f5fb37ec266f4b84ec6aa4fe0453c59" := by
  decide

/-- Sanity: the modelled registration hash reproduces the searchid that
test_register asserts for the bbox query. -/
theorem searchHashId_queryBbox :
    (registerSearch [] queryBbox).2 = "5e86ce566b979e567370a6ad85aaa68a" := by
  decide

/-! ## Helper lemmas -/

theorem find?_append_of_none {α : Type _} (p : α → Bool) (l₁ l₂ : List α)
    (h : l₁.find? p = none) : (l₁ ++ l₂).find? p = l₂.find? p := by
  induction l₁ with
  | nil => simp
  | cons a t ih =>
      rw [List.cons_append]
      cases hpa : p a with
      | true => rw [List.find?_cons_of_pos _ hpa] at h; exact absurd h (by simp)
      | false =>
          rw [List.find?_cons_of_neg _ (by simp [hpa])] at h
          rw [List.find?_cons_of_neg _ (by simp [hpa])]
          exact ih h

theorem cacheLookup_none_iff {α : Type} (now : Nat) (st : CacheState α)
    (k : String × String) :
    cacheLookup now st k = none ↔ ∀ e ∈ st, e.key = k → e.expire ≤ now := by
  unfold cacheLookup
  rw [Option.map_eq_none', List.find?_eq_none]
  constructor
  · intro h e he hk
    have := h e he
    simp only [decide_eq_true_eq, not_and, not_lt] at this
    exact this hk
  · intro h e he
    simp only [decide_eq_true_eq, not_and, not_lt]
    exact h e he

theorem mem_cacheEvict {α : Type} (now : Nat) (cfg : CacheConfig)
    (st : CacheState α) (e : CacheEntry α) (he : e ∈ cacheEvict now cfg st) :
    e ∈ st ∧ now < e.expire := by
  unfold cacheEvict at he
  have hlive : e ∈ st.filter (fun e => decide (now < e.expire)) := by
    by_cases hc : cfg.maxsize ≤ (st.filter (fun e => decide (now < e.expire))).length
    · rw [if_pos hc] at he
      exact List.mem_of_mem_drop he
    · rwa [if_neg hc] at he
  have := List.mem_filter.mp hlive
  exact ⟨this.1, by simpa using this.2⟩

theorem cacheLookup_insert_hit {α : Type} (cfg : CacheConfig) (now now' : Nat)
    (st : CacheState α) (k : String × String) (v : α)
    (hmiss : cacheLookup now st k = none) (h2 : now' < now + cfg.ttl) :
    cacheLookup now' (cacheInsert now cfg st k v) k = some v := by
  unfold cacheInsert cacheLookup
  rw [find?_append_of_none]
  · simp [List.find?, h2]
  · rw [List.find?_eq_none]
    intro e he
    obtain ⟨hest, hlive⟩ := mem_cacheEvict now cfg st e he
    simp only [decide_eq_true_eq, not_and]
    intro hk
    exact absurd hlive (by
      have := (cacheLookup_none_iff now st k).mp hmiss e hest hk
      omega)

theorem cacheLookup_insert_expired {α : Type} (cfg : CacheConfig) (now now'' : Nat)
    (st : CacheState α) (k : String × String) (v : α)
    (hmiss : cacheLookup now st k = none) (h3 : now + cfg.ttl ≤ now'') :
    cacheLookup now'' (cacheInsert now cfg st k v) k = none := by
  unfold cacheInsert cacheLookup
  rw [Option.map_eq_none', List.find?_eq_none]
  intro e he
  rcases List.mem_append.mp he with he1 | he2
  · obtain ⟨hest, hlive⟩ := mem_cacheEvict now cfg st e he1
    simp only [decide_eq_true_eq, not_and, not_lt]
    intro hk
    have := (cacheLookup_none_iff now st k).mp hmiss e hest hk
    omega
  · have : e = ⟨k, v, now + cfg.ttl⟩ := by simpa using he2
    subst this
    simp only [decide_eq_true_eq, not_and, not_lt]
    intro _
    exact h3

theorem registryLookup_self_append (reg : SearchRegistry) (r : RegisteredSearch)
    (h : registryLookup reg r.searchid = none) :
    registryLookup (reg ++ [r]) r.searchid = some r := by
  unfold registryLookup at *
  rw [find?_append_of_none _ _ _ h]
  simp [List.find?]

theorem linearColormap_twoStop :
    linearColormap twoStopLinear = (List.range 256).map (fun i => (i, [i, i, i, 255])) := by
  decide

/-! ## Claim theorems -/

/-- C1: search registration is deterministic and idempotent — registering the
same body twice returns the same searchid and leaves the registry unchanged —
and on the tests' queries it yields the pinned searchids, with the added
bounding box changing the id. -/
theorem C1_register_deterministic_idempotent :
    (∀ (reg : SearchRegistry) (q : RegisterMosaic),
        registerSearch (registerSearch reg q).1 q = registerSearch reg q)
    ∧ (registerSearch [] queryNoBbox).2 = "8f5fb37ec266f4b84ec6aa4fe0453c59"
    ∧ (registerSearch [] queryBbox).2 = "5e86ce566b979e567370a6ad85aaa68a"
    ∧ (registerSearch [] queryNoBbox).2 ≠ (registerSearch [] queryBbox).2 := by
  refine ⟨?_, by decide, by decide, by decide⟩
  intro reg q
  unfold registerSearch
  cases h : registryLookup reg (searchHashId (JVal.obj (SearchParams q).1) (SearchParams q).2) with
  | some r => simp [h]
  | none =>
      simp only [h]
      rw [registryLookup_self_append reg
        ⟨searchHashId (JVal.obj (SearchParams q).1) (SearchParams q).2,
         JVal.obj (SearchParams q).1, (SearchParams q).2⟩ h]

/-- C2: the search dict built by SearchParams never carries the metadata key,
and each of its entries comes from a field that is not metadata and whose value
is present — absent (None) fields are omitted rather than encoded. -/
theorem C2_SearchParams_canonical (body : RegisterMosaic) :
    (∀ kv ∈ (SearchParams body).1, kv.1 ≠ "metadata")
    ∧ (∀ kv ∈ (SearchParams body).1,
        ∃ f ∈ body.fieldList, f.pyName ≠ "metadata" ∧ f.value = some kv.2
          ∧ kv.1 = f.pyAlias) := by
  have main : ∀ kv ∈ (SearchParams body).1,
      ∃ f ∈ body.fieldList, f.pyName ≠ "metadata" ∧ f.value = some kv.2
        ∧ kv.1 = f.pyAlias := by
    intro kv hkv
    simp only [SearchParams, pydanticDict, List.mem_filterMap] at hkv
    obtain ⟨f, hf, hg⟩ := hkv
    by_cases hname : f.pyName ∈ ["metadata"]
    · rw [if_pos hname] at hg
      exact absurd hg (by simp)
    · rw [if_neg hname] at hg
      cases hv : f.value with
      | none => rw [hv] at hg; exact absurd hg (by simp)
      | some v =>
          rw [hv] at hg
          have hkv2 := Option.some.inj hg
          subst hkv2
          refine ⟨f, hf, by simpa using hname, ?_, ?_⟩ <;> simp [hv]
  refine ⟨?_, main⟩
  intro kv hkv
  obtain ⟨f, hf, hname, _, hkey⟩ := main kv hkv
  rw [hkey]
  simp only [RegisterMosaic.fieldList, List.mem_cons, List.not_mem_nil, or_false] at hf
  rcases hf with h | h | h | h | h | h | h | h <;> subst h <;>
    first
      | exact absurd rfl hname
      | simp

/-- Witness for C2 on the bbox query: the emitted keys in order, none of them
metadata. -/
theorem C2_witness :
    ((SearchParams queryBbox).1.map Prod.fst = ["collections", "bbox", "filter-lang"])
    ∧ ∀ kv ∈ (SearchParams queryBbox).1, kv.1 ≠ "metadata" :=
  ⟨by decide, (C2_SearchParams_canonical queryBbox).1⟩

/-- C3: a successful miss at time `now` caches the fetched item until
`now + ttl`; every same-key call strictly before that instant answers from the
cache with no backing fetch and leaves the cache unchanged, and any call from
that instant on issues a fresh fetch. -/
theorem C3_cache_single_fetch_within_ttl {Pool α : Type} (cfg : CacheConfig)
    (db : Pool → String → String → Option (SearchResp α)) (st : CacheState α)
    (now now' now'' : Nat) (pool pool' pool'' : Pool) (collection item : String)
    (v : α) (hmiss : cacheLookup now st (collection, item) = none)
    (hq : get_stac_item_query db pool collection item = .ok v)
    (h2 : now' < now + cfg.ttl) (h3 : now + cfg.ttl ≤ now'') :
    get_stac_item cfg db st now pool collection item
      = (.ok v, cacheInsert now cfg st (collection, item) v, true)
    ∧ get_stac_item cfg db (cacheInsert now cfg st (collection, item) v) now'
        pool' collection item
      = (.ok v, cacheInsert now cfg st (collection, item) v, false)
    ∧ (get_stac_item cfg db (cacheInsert now cfg st (collection, item) v) now''
        pool'' collection item).2.2 = true := by
  refine ⟨?_, ?_, ?_⟩
  · simp [get_stac_item, stacItemCacheKey, hmiss, hq]
  · simp [get_stac_item, stacItemCacheKey,
      cacheLookup_insert_hit cfg now now' st (collection, item) v hmiss h2]
  · have hnone := cacheLookup_insert_expired cfg now now'' st (collection, item) v hmiss h3
    simp only [get_stac_item, stacItemCacheKey, hnone]
    cases hq2 : get_stac_item_query db pool'' collection item <;> simp [hq2]

/-- Witness for C3 with an empty cache, ttl 10, a fetch at time 0, a hit at
time 9 and a fresh fetch at time 10. -/
theorem C3_witness :
    get_stac_item ⟨4, 10⟩
        (fun (_ : Unit) (_ _ : String) => some (⟨some [7], 0⟩ : SearchResp Nat))
        [] 0 () "c1" "i1"
      = (.ok 7, cacheInsert 0 ⟨4, 10⟩ [] ("c1", "i1") 7, true)
    ∧ get_stac_item ⟨4, 10⟩
        (fun (_ : Unit) (_ _ : String) => some (⟨some [7], 0⟩ : SearchResp Nat))
        (cacheInsert 0 ⟨4, 10⟩ [] ("c1", "i1") 7) 9 () "c1" "i1"
      = (.ok 7, cacheInsert 0 ⟨4, 10⟩ [] ("c1", "i1") 7, false)
    ∧ (get_stac_item ⟨4, 10⟩
        (fun (_ : Unit) (_ _ : String) => some (⟨some [7], 0⟩ : SearchResp Nat))
        (cacheInsert 0 ⟨4, 10⟩ [] ("c1", "i1") 7) 10 () "c1" "i1").2.2 = true :=
  C3_cache_single_fetch_within_ttl ⟨4, 10⟩
    (fun (_ : Unit) (_ _ : String) => some (⟨some [7], 0⟩ : SearchResp Nat))
    [] 0 9 10 () () () "c1" "i1" 7 rfl rfl (by decide) (by decide)

/-- C4: the single-item lookup fails with a 404 naming the item and collection
exactly when the catalog response is falsy, lacks a features key, or holds a
feature count different from one; otherwise it returns the single feature. -/
theorem C4_single_item_exactly_one {Pool α : Type}
    (db : Pool → String → String → Option (SearchResp α))
    (pool : Pool) (collection item : String) :
    (respTruthy (db pool collection item) = false
        ∨ respHasFeatures (db pool collection item) = false
        ∨ (respFeatures (db pool collection item)).length ≠ 1 →
      get_stac_item_query db pool collection item
        = .error ⟨404, "No item '" ++ item ++ "' found in '" ++ collection ++ "' collection"⟩)
    ∧ (respTruthy (db pool collection item) = true
        ∧ respHasFeatures (db pool collection item) = true
        ∧ (respFeatures (db pool collection item)).length = 1 →
      ∃ x, respFeatures (db pool collection item) = [x]
        ∧ get_stac_item_query db pool collection item = .ok x) := by
  constructor
  · intro h
    unfold get_stac_item_query parseItemResp
    rw [if_pos h]
    rfl
  · rintro ⟨h1, h2, h3⟩
    obtain ⟨x, hx⟩ := List.length_eq_one.mp h3
    refine ⟨x, hx, ?_⟩
    unfold get_stac_item_query parseItemResp
    rw [if_neg (by simp [h1, h2, h3]), hx]
    rfl

/-- Witness for C4: a NULL response turns into the 404 with the exact message,
and a one-feature response returns that feature. -/
theorem C4_witness :
    get_stac_item_query (fun (_ : Unit) (_ _ : String) => (none : Option (SearchResp Nat)))
        () "maxar" "itemX"
      = .error ⟨404, "No item 'itemX' found in 'maxar' collection"⟩
    ∧ get_stac_item_query (fun (_ : Unit) (_ _ : String) => some (⟨some [7], 0⟩ : SearchResp Nat))
        () "maxar" "itemX" = .ok 7 := by
  constructor
  · exact (C4_single_item_exactly_one _ () "maxar" "itemX").1 (by decide)
  · obtain ⟨x, hx, hq⟩ := (C4_single_item_exactly_one
      (fun (_ : Unit) (_ _ : String) => some (⟨some [7], 0⟩ : SearchResp Nat))
      () "maxar" "itemX").2 (by decide)
    have hx7 : x = 7 := by
      have h7 := congrArg (fun l => l.headD 0) hx
      simpa using h7.symm
    rwa [hx7] at hq

/-- C5: resolving the two-stop black-to-white specification with kind linear
expands to exactly 256 entries indexed 0..255, each channel non-decreasing
across indices, the first entry the first stop and the last entry the second
stop. -/
theorem C5_linear_two_stop_expansion (registry : String → List (Int × Color))
    (jsonLoad : String → JsonParseOutcome) (s : String) (hs : s ≠ "")
    (hp : jsonLoad s = .value (.dict twoStopLinear)) :
    ColorMapParams registry jsonLoad none (some s) .linear
      = .ok (some (.expanded (linearColormap twoStopLinear)))
    ∧ (linearColormap twoStopLinear).length = 256
    ∧ (linearColormap twoStopLinear).map Prod.fst = List.range 256
    ∧ (linearColormap twoStopLinear).getD 0 (0, []) = (0, [0, 0, 0, 255])
    ∧ (linearColormap twoStopLinear).getD 255 (0, []) = (255, [255, 255, 255, 255])
    ∧ ∀ i j ch : ℕ, i ≤ j → j < 256 →
        ((linearColormap twoStopLinear).getD i (0, [])).2.getD ch 0
          ≤ ((linearColormap twoStopLinear).getD j (0, [])).2.getD ch 0 := by
  have hv : linearCmValid twoStopLinear = true := by decide
  refine ⟨by simp [ColorMapParams, hs, hp, hv], by decide, by decide, by decide, by decide, ?_⟩
  intro i j ch hij hj
  have hi : i < 256 := lt_of_le_of_lt hij hj
  rw [linearColormap_twoStop]
  have hget : ∀ n : ℕ, n < 256 →
      ((List.range 256).map (fun i => (i, [i, i, i, 255]))).getD n (0, [])
        = (n, [n, n, n, 255]) := by
    intro n hn
    rw [List.getD_eq_getElem?_getD, List.getElem?_map, List.getElem?_range hn]
    rfl
  rw [hget i hi, hget j hj]
  rcases ch with _ | _ | _ | _ | ch <;> simp [List.getD, hij]

/-- Witness for C5 with a concrete parser returning the two stops. -/
theorem C5_witness :
    ColorMapParams (fun _ => [])
        (fun _ => JsonParseOutcome.value (ParsedColormap.dict twoStopLinear))
        none (some "two stop gradient") ColorMapKind.linear
      = .ok (some (.expanded (linearColormap twoStopLinear))) :=
  (C5_linear_two_stop_expansion (fun _ => [])
    (fun _ => JsonParseOutcome.value (ParsedColormap.dict twoStopLinear))
    "two stop gradient" (by decide) rfl).1

/-- C6: colormap resolution honors at most one source: a supplied name always
resolves to the registered colormap of that name, ignoring any explicit
colormap string; with neither a name nor an explicit colormap supplied the
dependency returns none. -/
theorem C6_colormap_precedence (registry : String → List (Int × Color))
    (jsonLoad : String → JsonParseOutcome) :
    (∀ (n : String) (cmstr : Option String) (ctype : ColorMapKind),
        ColorMapParams registry jsonLoad (some n) cmstr ctype
          = .ok (some (.table (registry n))))
    ∧ (∀ ctype : ColorMapKind,
        ColorMapParams registry jsonLoad none none ctype = .ok none) :=
  ⟨fun _ _ _ => rfl, fun _ => rfl⟩

/-- C7: a non-empty explicit colormap string whose JSON parsing fails with a
syntax error makes the dependency terminate with exactly HTTP 400 "Could not
parse the colormap value." — no partial mapping is ever produced. -/
theorem C7_malformed_colormap_400 (registry : String → List (Int × Color))
    (jsonLoad : String → JsonParseOutcome) (s : String) (ctype : ColorMapKind)
    (hs : s ≠ "") (hp : jsonLoad s = .decodeError) :
    ColorMapParams registry jsonLoad none (some s) ctype
      = .error (.http ⟨400, "Could not parse the colormap value."⟩) := by
  simp [ColorMapParams, hs, hp]

/-- Witness for C7 at a concrete malformed string. -/
theorem C7_witness :
    ColorMapParams (fun _ => []) (fun _ => JsonParseOutcome.decodeError) none
        (some "not json") ColorMapKind.explicit
      = .error (.http ⟨400, "Could not parse the colormap value."⟩) :=
  C7_malformed_colormap_400 (fun _ => []) (fun _ => JsonParseOutcome.decodeError)
    "not json" ColorMapKind.explicit (by decide) rfl

/-- C8: for a registered search carrying a declared bounding region, a query
region disjoint from it resolves to the empty ordered list with success, and
resolution for a registered searchid never errors whatever the region. -/
theorem C8_outside_bbox_empty (catalog : List CatalogItem) (reg : MosaicRegistry)
    (sid : String) (s : MosaicSearch) (hlook : mosaicLookup reg sid = some s)
    (region b : Box) (hb : s.bboxFilter = some b)
    (hdisj : region.intersects b = false) :
    assetsForRegion catalog reg sid region = .ok []
    ∧ ∀ region' : Box, ∃ l, assetsForRegion catalog reg sid region' = .ok l := by
  constructor
  · simp [assetsForRegion, hlook, spatialSearch, hb, boxInter, hdisj]
  · intro region'
    exact ⟨spatialSearch catalog s region', by simp [assetsForRegion, hlook]⟩

/-- Witness for C8: a registered search whose bounding region misses the query
point, with an item inside the search's own region, resolves to the empty
list. -/
theorem C8_witness :
    assetsForRegion
        [⟨"item1", "c1", ⟨⟨0, 1⟩, ⟨0, 1⟩, ⟨2, 1⟩, ⟨2, 1⟩⟩, [("cog", "s3k")]⟩]
        [⟨"sid1", some ["c1"], some ⟨⟨0, 1⟩, ⟨0, 1⟩, ⟨2, 1⟩, ⟨2, 1⟩⟩⟩]
        "sid1" (pointBox ⟨5, 1⟩ ⟨5, 1⟩) = .ok [] :=
  (C8_outside_bbox_empty _ _ "sid1" ⟨"sid1", some ["c1"], some ⟨⟨0, 1⟩, ⟨0, 1⟩, ⟨2, 1⟩, ⟨2, 1⟩⟩⟩
    (by rfl) (pointBox ⟨5, 1⟩ ⟨5, 1⟩) ⟨⟨0, 1⟩, ⟨0, 1⟩, ⟨2, 1⟩, ⟨2, 1⟩⟩ rfl (by decide)).1

/-- C9: every searchid-keyed operation — info, assets-for-point,
assets-for-tile, tile rendering, statistics — answers an unregistered searchid
with NotFound carrying the message naming that exact id, of the form
SearchId backtick id backtick not found. -/
theorem C9_unregistered_searchid_notfound (catalog : List CatalogItem)
    (reg : MosaicRegistry) (sid : String) (h : mosaicLookup reg sid = none)
    (lon lat : Frac) (tile geom : Box) (sel sel2 : Option String) :
    mosaicInfoEndpoint reg sid = .error (searchIdNotFound sid)
    ∧ assetsForPointEndpoint catalog reg sid lon lat = .error (searchIdNotFound sid)
    ∧ assetsForTileEndpoint catalog reg sid tile = .error (searchIdNotFound sid)
    ∧ mosaicTileEndpoint catalog reg sid tile sel = .error (searchIdNotFound sid)
    ∧ mosaicStatisticsEndpoint catalog reg sid geom sel2 = .error (searchIdNotFound sid)
    ∧ searchIdNotFound sid = ⟨404, "SearchId `" ++ sid ++ "` not found"⟩ := by
  refine ⟨?_, ?_, ?_, ?_, ?_, rfl⟩ <;>
    simp [mosaicInfoEndpoint, assetsForPointEndpoint, assetsForTileEndpoint,
      mosaicTileEndpoint, mosaicStatisticsEndpoint, assetsForRegion, h]

/-- Witness for C9 at the tests' 32-character unregistered id, checking the
exact detail string asserted by the tests. -/
theorem C9_witness :
    mosaicInfoEndpoint [] "aaaaaaaaaaaaaaaaaaaaaaaaaaaaaaaa"
        = .error ⟨404, "SearchId `aaaaaaaaaaaaaaaaaaaaaaaaaaaaaaaa` not found"⟩
    ∧ mosaicTileEndpoint [] [] "aaaaaaaaaaaaaaaaaaaaaaaaaaaaaaaa"
        ⟨⟨0, 1⟩, ⟨0, 1⟩, ⟨1, 1⟩, ⟨1, 1⟩⟩ (some "cog")
        = .error ⟨404, "SearchId `aaaaaaaaaaaaaaaaaaaaaaaaaaaaaaaa` not found"⟩ := by
  have h := C9_unregistered_searchid_notfound [] [] "aaaaaaaaaaaaaaaaaaaaaaaaaaaaaaaa"
    (by rfl) ⟨0, 1⟩ ⟨0, 1⟩ ⟨⟨0, 1⟩, ⟨0, 1⟩, ⟨1, 1⟩, ⟨1, 1⟩⟩ ⟨⟨0, 1⟩, ⟨0, 1⟩, ⟨1, 1⟩, ⟨1, 1⟩⟩
    (some "cog") (some "cog")
  exact ⟨h.1, h.2.2.2.1⟩

/-- C10: the cache key is computed from collection and item only — the pool
argument is ignored — so once a call through one pool has populated the cache,
a same-key call through any other pool within the TTL answers the first pool's
cached snapshot without any fetch through the second pool. -/
theorem C10_cache_key_ignores_pool {Pool α : Type} (cfg : CacheConfig)
    (db : Pool → String → String → Option (SearchResp α)) (st : CacheState α)
    (now now' : Nat) (p1 p2 : Pool) (collection item : String) (v : α)
    (hmiss : cacheLookup now st (collection, item) = none)
    (hq : get_stac_item_query db p1 collection item = .ok v)
    (h2 : now' < now + cfg.ttl) :
    (∀ pa pb : Pool,
      stacItemCacheKey pa collection item = stacItemCacheKey pb collection item)
    ∧ get_stac_item cfg db
        ((get_stac_item cfg db st now p1 collection item).2.1) now' p2 collection item
      = (.ok v, (get_stac_item cfg db st now p1 collection item).2.1, false) := by
  have h1 : get_stac_item cfg db st now p1 collection item
      = (.ok v, cacheInsert now cfg st (collection, item) v, true) := by
    simp [get_stac_item, stacItemCacheKey, hmiss, hq]
  refine ⟨fun _ _ => rfl, ?_⟩
  rw [h1]
  simp [get_stac_item, stacItemCacheKey,
    cacheLookup_insert_hit cfg now now' st (collection, item) v hmiss h2]

/-- Witness for C10: pools are numbered; the backing catalog would answer 9
through pool 1, yet the call through pool 1 returns the 7 cached via pool 0,
with no fetch. -/
theorem C10_witness :
    (get_stac_item ⟨4, 10⟩
        (fun (p : Nat) (_ _ : String) =>
          some (⟨some [if p = 0 then 7 else 9], 0⟩ : SearchResp Nat))
        ((get_stac_item ⟨4, 10⟩
          (fun (p : Nat) (_ _ : String) =>
            some (⟨some [if p = 0 then 7 else 9], 0⟩ : SearchResp Nat))
          [] 0 0 "c2" "i2").2.1) 5 1 "c2" "i2")
      = (.ok 7, (get_stac_item ⟨4, 10⟩
          (fun (p : Nat) (_ _ : String) =>
            some (⟨some [if p = 0 then 7 else 9], 0⟩ : SearchResp Nat))
          [] 0 0 "c2" "i2").2.1, false) :=
  (C10_cache_key_ignores_pool ⟨4, 10⟩
    (fun (p : Nat) (_ _ : String) =>
      some (⟨some [if p = 0 then 7 else 9], 0⟩ : SearchResp Nat))
    [] 0 5 0 1 "c2" "i2" 7 rfl rfl (by decide)).2
